import Mathlib

/-!
Verification of the real-time telephony stream handler
(backend/twilio_stream.py and backend/voice_classifier.py).

Shallow embedding conventions:
- text is modelled as `List Char` (Python `str` indexing is by code point);
- raw audio frames are modelled by abstract contents (`Nat`), with the
  voice-activity detector given as a function `Nat → Except Unit Bool`
  where `Except.error` stands for the detector raising an exception;
- external effects (saving messages, sending greetings, playing the
  AI-detected announcement, invoking the pipeline) are recorded as fields
  of explicit state/result records;
- wall-clock time is abstracted: the classification-window expiry handler
  `runClassification` is modelled as the function invoked at expiry.
-/

namespace TwilioStream

/-! ### Sentence splitting (TwilioStreamHandler.extract_sentence, lines 469-481) -/

/-- The sentence terminator characters: period, bang, question mark and
the Devanagari danda (the source string literal on line 472). -/
def enders : List Char := ['.', '!', '?', '।']

/-- Minimum stripped length before a terminator may end a sentence. -/
def minSentenceLen : Nat := 15

/-- Python str.strip from the left: drop leading whitespace. -/
def lstripChars (s : List Char) : List Char := s.dropWhile Char.isWhitespace

/-- Python str.strip: drop leading and trailing whitespace. -/
def stripChars (s : List Char) : List Char :=
  ((s.dropWhile Char.isWhitespace).reverse.dropWhile Char.isWhitespace).reverse

/-- The scan in extract_sentence: walk the text left to right; `taken` is
the prefix text[:i] already passed, `rest` is text[i:].  At each character
that is a terminator with a long-enough stripped prefix, return that
stripped prefix, except that a period immediately followed by another
period (an ellipsis) is skipped. -/
def extractGo (taken rest : List Char) : Option (List Char) :=
  match rest with
  | [] => none
  | ch :: rest2 =>
    let taken1 := taken ++ [ch]
    if ch ∈ enders ∧ (stripChars taken1).length ≥ minSentenceLen then
      if ch = '.' ∧ rest2.head? = some '.' then extractGo taken1 rest2
      else some (stripChars taken1)
    else extractGo taken1 rest2

/-- TwilioStreamHandler.extract_sentence: return a complete sentence from
the start of the text, or none. -/
def extractSentence (text : List Char) : Option (List Char) :=
  extractGo [] text

/-! ### The token-consumption loop of process_speech (lines 438-451) -/

/-- The mutable locals of the streaming loop in process_speech:
`buf` is sentence_buf, `parts` is full_response_parts, `spoken` records
the sentences handed to tts.speak, `raised` records that the LLM token
stream raised an exception. -/
structure SpeakState where
  buf : List Char
  parts : List (List Char)
  spoken : List (List Char)
  raised : Bool
  deriving DecidableEq

def initSpeak : SpeakState := ⟨[], [], [], false⟩

/-- The `for token in chat_completion_streaming(...)` loop.  Each stream
element is a token (`Except.ok`) or an exception raised by the stream
(`Except.error`), which aborts the loop. -/
def speakLoop (s : SpeakState) : List (Except Unit (List Char)) → SpeakState
  | [] => s
  | .error _ :: _ => { s with raised := true }
  | .ok tok :: rest =>
    let buf1 := s.buf ++ tok
    let parts1 := s.parts ++ [tok]
    match extractSentence buf1 with
    | some sen =>
      speakLoop { buf := lstripChars (buf1.drop sen.length), parts := parts1,
                  spoken := s.spoken ++ [sen], raised := s.raised } rest
    | none => speakLoop { s with buf := buf1, parts := parts1 } rest

/-- The sentences handed to the synthesis stream for a finite token
stream that does not raise: the loop, then the end-of-stream flush
(`if sentence_buf.strip(): tts.speak(sentence_buf.strip(), ...)`). -/
def streamSentences (tokens : List (List Char)) : List (List Char) :=
  let s := speakLoop initSpeak (tokens.map Except.ok)
  if stripChars s.buf ≠ [] then s.spoken ++ [stripChars s.buf] else s.spoken

/-! ### One pipeline turn (TwilioStreamHandler.process_speech, lines 388-464,
wrapped by the try/finally of on_media, lines 264-274) -/

/-- Observable effects of one call to process_speech.  The audio-format
steps (resample, WAV wrapping) are pure adapters and carry no decision;
the decisions modelled are: the empty-transcript early return, the mute
early return, opening the synthesis stream, the token loop, the finally
that closes the stream, and step 8 (persist and report the response). -/
structure PipeResult where
  /-- save_message(call_sid, "user", transcript) was reached. -/
  userSaved : Bool
  /-- a CartesiaTTSStreamer was constructed for this turn. -/
  ttsOpened : Bool
  /-- tts.close() ran (the finally on line 452). -/
  ttsClosed : Bool
  /-- sentences handed to tts.speak, in order. -/
  spoken : List (List Char)
  /-- the assembled response, when step 8 was reached. -/
  aiResponse : Option (List Char)
  /-- save_message(call_sid, "assistant", ...) ran. -/
  aiSaved : Bool
  /-- the response was broadcast to the dashboard collaborators. -/
  aiBroadcast : Bool
  /-- the response_end mark was sent. -/
  markSent : Bool
  /-- process_speech raised (the LLM stream raised). -/
  raised : Bool
  deriving DecidableEq

/-- process_speech for one utterance.  `transcript` is the STT result,
`muted` the mute flag for this call, `stream` the LLM token stream (an
`Except.error` element is an exception raised while iterating it). -/
def processSpeech (transcript : List Char) (muted : Bool)
    (stream : List (Except Unit (List Char))) : PipeResult :=
  if stripChars transcript = [] then
    -- empty transcript: skip the turn silently (line 401)
    ⟨false, false, false, [], none, false, false, false, false⟩
  else if muted then
    -- mute check (line 423): user message saved, no response generated
    ⟨true, false, false, [], none, false, false, false, false⟩
  else
    let s := speakLoop initSpeak stream
    if s.raised then
      -- exception in the token loop: the finally closes the stream,
      -- step 8 is never reached, the exception propagates to on_media
      ⟨true, true, true, s.spoken, none, false, false, false, true⟩
    else
      let spokenAll :=
        if stripChars s.buf ≠ [] then s.spoken ++ [stripChars s.buf] else s.spoken
      ⟨true, true, true, spokenAll, some s.parts.flatten, true, true, true, false⟩

/-- The state after the utterance-completion block of on_media
(lines 263-274): process_speech runs inside try/except/finally; the
finally clears is_processing and re-arms the cooldown on every path. -/
structure TurnResult where
  pipe : PipeResult
  cooldownAfter : Nat
  processingAfter : Bool
  deriving DecidableEq

/-- Frames of post-response cooldown (COOLDOWN_FRAMES, line 82). -/
def COOLDOWN_FRAMES : Nat := 50

def runTurn (transcript : List Char) (muted : Bool)
    (stream : List (Except Unit (List Char))) : TurnResult :=
  { pipe := processSpeech transcript muted stream,
    cooldownAfter := COOLDOWN_FRAMES,
    processingAfter := false }

/-! ### Session state and the media-event handler (on_media, lines 187-277) -/

/-- VAD thresholds (lines 77-78). -/
def SILENCE_THRESHOLD_FRAMES : Nat := 25
def MIN_SPEECH_FRAMES : Nat := 20

/-- Per-connection state of TwilioStreamHandler, restricted to the fields
the media path reads or writes, plus effect counters.  Audio contents are
abstract frame identifiers (`Nat`); `emitted` records the utterances
handed to process_speech, each as its list of frames in order. -/
structure Session where
  classPhase : Bool
  callerIsAi : Bool
  isProcessing : Bool
  cooldownRemaining : Nat
  classAudio : List Nat
  classSpeechFrames : Nat
  mulawBuffer : List Nat
  audioBuffer : List Nat
  speechStarted : Bool
  silenceCount : Nat
  speechFrameCount : Nat
  emitted : List (List Nat)
  greetings : Nat
  announcements : Nat
  classifierCalled : Bool
  deriving DecidableEq

/-- TwilioStreamHandler.check_vad (lines 370-376): the underlying
detector may raise (`Except.error`); any exception yields false. -/
def checkVad (vad : Nat → Except Unit Bool) (f : Nat) : Bool :=
  match vad f with
  | .ok b => b
  | .error _ => false

/-- TwilioStreamHandler.reset_vad_state (lines 378-383). -/
def resetVadState (st : Session) : Session :=
  { st with audioBuffer := [], mulawBuffer := [],
            speechStarted := false, silenceCount := 0, speechFrameCount := 0 }

/-- One iteration of the framing while-loop body (lines 234-277), for a
frame already popped from the mulaw buffer: cooldown check, VAD, the
speech/silence counters, and the utterance-completion block (in which
process_speech runs and the finally re-arms the cooldown; the pipeline
internals are recorded only through `emitted`). -/
def processFrame (vad : Nat → Except Unit Bool) (f : Nat) (st : Session) : Session :=
  if st.cooldownRemaining > 0 then
    { st with cooldownRemaining := st.cooldownRemaining - 1 }
  else if checkVad vad f then
    { st with speechStarted := true, silenceCount := 0,
              speechFrameCount := st.speechFrameCount + 1,
              audioBuffer := st.audioBuffer ++ [f] }
  else if st.speechStarted then
    let st1 := { st with silenceCount := st.silenceCount + 1,
                         audioBuffer := st.audioBuffer ++ [f] }
    if st1.silenceCount ≥ SILENCE_THRESHOLD_FRAMES then
      if st1.speechFrameCount ≥ MIN_SPEECH_FRAMES then
        let pcm := st1.audioBuffer
        let st2 := resetVadState st1
        { st2 with emitted := st2.emitted ++ [pcm],
                   isProcessing := false,
                   cooldownRemaining := COOLDOWN_FRAMES }
      else resetVadState st1
    else st1
  else st

/-- The `while len(self.mulaw_buffer) >= FRAME_SIZE_MULAW` loop
(lines 234-236), with fuel bounding the iteration count by the buffer
length (the loop only ever shortens the buffer). -/
def drainFrames (vad : Nat → Except Unit Bool) : Nat → Session → Session
  | 0, st => st
  | fuel + 1, st =>
    match st.mulawBuffer with
    | [] => st
    | f :: rest => drainFrames vad fuel (processFrame vad f { st with mulawBuffer := rest })

/-- TwilioStreamHandler.on_media for one inbound media event carrying one
frame: the blocked-session check (line 188), the is_processing check
(line 191), the classification-phase branch (lines 201-228, with the
wall-clock window expiry abstracted out — `runClassification` below is
the function invoked at expiry), then the normal framing loop. -/
def onMedia (vad : Nat → Except Unit Bool) (f : Nat) (st : Session) : Session :=
  if st.callerIsAi then st
  else if st.isProcessing then st
  else if st.classPhase then
    if st.cooldownRemaining > 0 then
      { st with cooldownRemaining := st.cooldownRemaining - 1 }
    else
      let st1 := { st with classAudio := st.classAudio ++ [f] }
      if checkVad vad f then
        { st1 with classSpeechFrames := st1.classSpeechFrames + 1 }
      else st1
  else
    let st1 := { st with mulawBuffer := st.mulawBuffer ++ [f] }
    drainFrames vad st1.mulawBuffer.length st1

/-- A run of consecutive inbound media events, one frame each. -/
def runFrames (vad : Nat → Except Unit Bool) (frames : List Nat) (st : Session) : Session :=
  frames.foldl (fun s f => onMedia vad f s) st

/-- Number of frames of a list the VAD classifies as speech. -/
def countSpeech (vad : Nat → Except Unit Bool) (l : List Nat) : Nat :=
  (l.filter (fun f => checkVad vad f)).length

/-- The session state at the start of the active (post-classification)
phase with expired cooldown and empty segmenter state. -/
def activeInit : Session :=
  { classPhase := false, callerIsAi := false, isProcessing := false,
    cooldownRemaining := 0, classAudio := [], classSpeechFrames := 0,
    mulawBuffer := [], audioBuffer := [], speechStarted := false,
    silenceCount := 0, speechFrameCount := 0, emitted := [],
    greetings := 0, announcements := 0, classifierCalled := false }

/-! ### Voice classification (run_classification, lines 286-347, and
voice_classifier.classify_audio, lines 17-64) -/

/-- The JSON dict returned by the classifier API: the handler reads
result.get("prediction", "human").  (The confidence field is used only
in log and dashboard text and carries no control-flow decision.) -/
structure ClassResp where
  prediction : Option (List Char)
  deriving DecidableEq

/-- voice_classifier.default_human: the fail-open default. -/
def defaultHuman : ClassResp := ⟨some "human".toList⟩

/-- voice_classifier.classify_audio: any transport or processing failure
of the HTTP call (raise, timeout, non-2xx, unparseable body — all of
which surface as exceptions of urlopen or json.loads) is caught and
replaced by the fail-open human default. -/
def classifyAudio (transport : Except Unit ClassResp) : ClassResp :=
  match transport with
  | .ok r => r
  | .error _ => defaultHuman

/-- Python str.lower on a code-point list. -/
def lowerChars (s : List Char) : List Char := s.map Char.toLower

/-- finish_classification_as_human (lines 343-347): broadcast DEFENDING,
re-send the greeting, arm the cooldown. -/
def finishClassificationAsHuman (st : Session) : Session :=
  { st with greetings := st.greetings + 1, cooldownRemaining := COOLDOWN_FRAMES }

/-- run_classification (lines 286-341), invoked at classification-window
expiry.  `callResult` is the outcome of the call to classify_audio as
seen by the handler: `.error` is the call itself raising (caught by the
try/except on lines 309-315).  Under five tallied speech frames the
classifier is never called and the session proceeds as human; a returned
prediction of "ai" (case-insensitive) blocks the session and plays the
announcement once; anything else proceeds as human. -/
def runClassification (callResult : Except Unit ClassResp) (st : Session) : Session :=
  let st0 := { st with classPhase := false, classAudio := [] }
  if st0.classSpeechFrames < 5 then
    finishClassificationAsHuman st0
  else
    let st1 := { st0 with classifierCalled := true }
    match callResult with
    | .error _ => finishClassificationAsHuman st1
    | .ok r =>
      if lowerChars (r.prediction.getD "human".toList) = "ai".toList then
        { st1 with callerIsAi := true, announcements := st1.announcements + 1 }
      else finishClassificationAsHuman st1

/-! ### The relay receive loop (TwilioStreamHandler.run, lines 126-143) -/

/-- One inbound WebSocket message: either text that fails json.loads, or
a parsed event (the event contents are opaque to the loop itself). -/
inductive RelayMsg where
  | malformed : RelayMsg
  | event : Nat → RelayMsg
  deriving DecidableEq

/-- Observable outcome of the receive loop. -/
structure RunResult where
  /-- events dispatched to handle_message, in order. -/
  handled : List Nat
  /-- log records written for malformed messages. -/
  malformedLogCount : Nat
  deriving DecidableEq

/-- TwilioStreamHandler.run up to the end of the message list (the relay
closing the stream): a message that fails json.loads hits the
`except json.JSONDecodeError: continue` on lines 135-136 — no log record,
no teardown — and the loop keeps servicing later messages. -/
def runLoop : List RelayMsg → RunResult
  | [] => ⟨[], 0⟩
  | .malformed :: rest => runLoop rest
  | .event e :: rest =>
    let r := runLoop rest
    { r with handled := e :: r.handled }

/-! ### Concrete instances used in witnesses -/

/-- A concrete detector: frames with identifier below 25 are speech. -/
def vadDemo : Nat → Except Unit Bool := fun n => Except.ok (Nat.blt n 25)

/-- A session at classification-window expiry with seven tallied speech frames. -/
def classifyingDemo : Session :=
  { activeInit with classPhase := true, classSpeechFrames := 7 }

/-- A session at classification-window expiry with two tallied speech frames. -/
def classifyingQuietDemo : Session :=
  { activeInit with classPhase := true, classSpeechFrames := 2 }

/-- An active session while the pipeline is running. -/
def processingDemo : Session :=
  { activeInit with isProcessing := true }

/-- Three speech frames under vadDemo. -/
def preDemo : List Nat := [0, 1, 2]

/-- Twenty-five silence frames under vadDemo. -/
def silsDemo : List Nat := List.replicate 25 99

/-! ### Reachability invariant of the active segmenter phase -/

/-- States reachable in the active phase from `activeInit` while no
utterance has yet been handed to the pipeline: every field other than
the four segmenter working fields is as in `activeInit`, the silence
run is below the threshold, and before any speech the working fields
are all empty. -/
structure SegInv (st : Session) : Prop where
  hcp : st.classPhase = false
  hai : st.callerIsAi = false
  hip : st.isProcessing = false
  hcd : st.cooldownRemaining = 0
  hca : st.classAudio = []
  hcsf : st.classSpeechFrames = 0
  hmb : st.mulawBuffer = []
  hem : st.emitted = []
  hgr : st.greetings = 0
  han : st.announcements = 0
  hcc : st.classifierCalled = false
  hsil : st.silenceCount < SILENCE_THRESHOLD_FRAMES
  hns : st.speechStarted = false →
    st.audioBuffer = [] ∧ st.silenceCount = 0 ∧ st.speechFrameCount = 0

/-! ## Theorems -/

/-- Claim C1, counterexample: for the incremental token input
"Hello there. How are " then "you today?", the emitted sentences are NOT
"Hello there." followed by "How are you today?"; the stripped prefix
"Hello there." has only 12 characters, below the 15-character minimum,
so the period does not split there. -/
theorem c1_first_sentence_counterexample :
    streamSentences ["Hello there. How are ".toList, "you today?".toList]
      ≠ ["Hello there.".toList, "How are you today?".toList] := by decide

/-- Claim C1, amended: for that input exactly one sentence is emitted,
namely the whole text "Hello there. How are you today?", emitted during
the stream when the question mark arrives (stripped length 31 at least
15); the end-of-stream flush then emits nothing. -/
theorem c1_single_sentence_amended :
    streamSentences ["Hello there. How are ".toList, "you today?".toList]
      = ["Hello there. How are you today?".toList] := by decide

/-- Claim C8, counterexample: a malformed inbound message is neither
logged nor does it tear the session down — after a malformed message the
loop goes on to dispatch the following event. -/
theorem c8_malformed_counterexample :
    (runLoop [RelayMsg.malformed, RelayMsg.event 7]).handled = [7]
    ∧ (runLoop [RelayMsg.malformed, RelayMsg.event 7]).malformedLogCount = 0 := by decide

/-- Claim C8, amended: a malformed inbound message is silently skipped
(the receive loop behaves as if the message had not arrived) and the
session continues with the remaining messages; teardown happens only
when the stream itself ends. -/
theorem c8_malformed_skip_amended (rest : List RelayMsg) :
    runLoop (RelayMsg.malformed :: rest) = runLoop rest := rfl

/-- Claim C9: a media event arriving while the pipeline is processing a
previous utterance leaves the whole session state unchanged — nothing is
buffered or queued for later. -/
theorem c9_drop_frames_while_processing (vad : Nat → Except Unit Bool) (f : Nat)
    (st : Session) (h : st.isProcessing = true) : onMedia vad f st = st := by
  unfold onMedia
  cases hA : st.callerIsAi <;> simp [hA, h]

/-- Claim C9, witness at a concrete processing session. -/
theorem c9_drop_frames_while_processing_witness :
    onMedia vadDemo 3 processingDemo = processingDemo :=
  c9_drop_frames_while_processing vadDemo 3 processingDemo rfl

/-- Claim C10: if the underlying voice-activity detector raises, the VAD
check returns false (the frame is treated as non-speech) instead of
propagating the exception. -/
theorem c10_vad_error_false (vad : Nat → Except Unit Bool) (f : Nat) (e : Unit)
    (h : vad f = .error e) : checkVad vad f = false := by
  unfold checkVad
  rw [h]

/-- Claim C10, witness with an always-raising detector. -/
theorem c10_vad_error_false_witness :
    checkVad (fun _ => Except.error ()) 0 = false :=
  c10_vad_error_false (fun _ => Except.error ()) 0 () rfl

/-- Claim C2, counterexample: when the LLM token stream raises mid-turn,
the synthesis stream is closed and the cooldown re-armed, but the
assembled response is NOT persisted or reported — contradicting the
claim that persistence and reporting happen on every turn, exception or
not. -/
theorem c2_persist_on_error_counterexample :
    (runTurn "namaste ji".toList false
        [Except.ok "Theek hai bhaiya. Aap kaun? ".toList, Except.error ()]).pipe.raised = true
    ∧ (runTurn "namaste ji".toList false
        [Except.ok "Theek hai bhaiya. Aap kaun? ".toList, Except.error ()]).pipe.ttsOpened = true
    ∧ (runTurn "namaste ji".toList false
        [Except.ok "Theek hai bhaiya. Aap kaun? ".toList, Except.error ()]).pipe.ttsClosed = true
    ∧ (runTurn "namaste ji".toList false
        [Except.ok "Theek hai bhaiya. Aap kaun? ".toList, Except.error ()]).cooldownAfter = COOLDOWN_FRAMES
    ∧ (runTurn "namaste ji".toList false
        [Except.ok "Theek hai bhaiya. Aap kaun? ".toList, Except.error ()]).pipe.aiSaved = false
    ∧ (runTurn "namaste ji".toList false
        [Except.ok "Theek hai bhaiya. Aap kaun? ".toList, Except.error ()]).pipe.aiBroadcast = false := by
  decide

/-- Claim C2, amended: on every utterance turn the synthesis stream, when
opened, is closed again on all exit paths, is_processing is cleared and
the cooldown is re-armed to COOLDOWN_FRAMES whether or not the pipeline
raised; but the assembled response is persisted and reported only when
the pipeline completed without an exception (and was not short-circuited
before opening the stream). -/
theorem c2_turn_cleanup_amended (t : List Char) (m : Bool)
    (s : List (Except Unit (List Char))) :
    ((runTurn t m s).pipe.ttsOpened = true → (runTurn t m s).pipe.ttsClosed = true)
    ∧ (runTurn t m s).cooldownAfter = COOLDOWN_FRAMES
    ∧ (runTurn t m s).processingAfter = false
    ∧ ((runTurn t m s).pipe.raised = false → (runTurn t m s).pipe.ttsOpened = true →
        (runTurn t m s).pipe.aiSaved = true ∧ (runTurn t m s).pipe.aiBroadcast = true
        ∧ (runTurn t m s).pipe.markSent = true) := by
  unfold runTurn processSpeech
  dsimp only
  split
  · simp
  · split
    · simp
    · split <;> simp

/-- Claim C2, witness: a concrete turn that completes normally. -/
theorem c2_turn_cleanup_witness :
    (runTurn "namaste ji".toList false
        [Except.ok "Theek hai bhaiya ji, boliye. ".toList]).pipe.ttsClosed = true
    ∧ (runTurn "namaste ji".toList false
        [Except.ok "Theek hai bhaiya ji, boliye. ".toList]).pipe.aiSaved = true :=
  ⟨(c2_turn_cleanup_amended "namaste ji".toList false
      [Except.ok "Theek hai bhaiya ji, boliye. ".toList]).1 (by decide),
   ((c2_turn_cleanup_amended "namaste ji".toList false
      [Except.ok "Theek hai bhaiya ji, boliye. ".toList]).2.2.2 (by decide) (by decide)).1⟩

set_option maxRecDepth 4000 in
/-- Claim C4: in the active phase with expired cooldown and empty
segmenter state, 25 consecutive speech frames followed by 25 consecutive
silence frames hand exactly one utterance to the pipeline, containing
all 50 frames in order, and afterwards speech_started is false, the
counters are zero and the audio and mulaw buffers are empty. -/
theorem c4_single_utterance :
    (runFrames vadDemo (List.range 50) activeInit).emitted = [List.range 50]
    ∧ (runFrames vadDemo (List.range 50) activeInit).speechStarted = false
    ∧ (runFrames vadDemo (List.range 50) activeInit).silenceCount = 0
    ∧ (runFrames vadDemo (List.range 50) activeInit).speechFrameCount = 0
    ∧ (runFrames vadDemo (List.range 50) activeInit).audioBuffer = []
    ∧ (runFrames vadDemo (List.range 50) activeInit).mulawBuffer = [] := by
  decide

/-- Claim C6: with fewer than five tallied speech frames at window
expiry, the external classifier is never called and the session proceeds
exactly as if classified human: greeting re-sent, cooldown armed,
classification phase over, session not blocked — whatever the external
call would have produced. -/
theorem c6_low_speech_skips_classifier (callResult : Except Unit ClassResp)
    (st : Session) (h : st.classSpeechFrames < 5) (hai : st.callerIsAi = false) :
    (runClassification callResult st).classifierCalled = st.classifierCalled
    ∧ (runClassification callResult st).callerIsAi = false
    ∧ (runClassification callResult st).greetings = st.greetings + 1
    ∧ (runClassification callResult st).cooldownRemaining = COOLDOWN_FRAMES
    ∧ (runClassification callResult st).classPhase = false
    ∧ runClassification callResult st = runClassification (.ok defaultHuman) st := by
  unfold runClassification finishClassificationAsHuman
  simp_all

/-- Claim C6, witness: a quiet window with a raising classifier call. -/
theorem c6_low_speech_skips_classifier_witness :
    (runClassification (.error ()) classifyingQuietDemo).classifierCalled
      = classifyingQuietDemo.classifierCalled
    ∧ (runClassification (.error ()) classifyingQuietDemo).callerIsAi = false
    ∧ (runClassification (.error ()) classifyingQuietDemo).greetings
      = classifyingQuietDemo.greetings + 1
    ∧ (runClassification (.error ()) classifyingQuietDemo).cooldownRemaining
      = COOLDOWN_FRAMES
    ∧ (runClassification (.error ()) classifyingQuietDemo).classPhase = false
    ∧ runClassification (.error ()) classifyingQuietDemo
      = runClassification (.ok defaultHuman) classifyingQuietDemo :=
  c6_low_speech_skips_classifier (.error ()) classifyingQuietDemo (by decide) rfl

/-- Claim C7: whether the call to the classifier raises (timeout,
transport failure) or the client has already swallowed the failure and
returned its fail-open human default (non-2xx and unparseable responses
surface as exceptions inside classify_audio), the session is not
blocked and continues into the active conversational path: greeting
re-sent, cooldown armed, classification phase over. -/
theorem c7_classifier_failure_fail_open (st : Session) (e e2 : Unit)
    (hai : st.callerIsAi = false) :
    ((runClassification (.error e) st).callerIsAi = false
      ∧ (runClassification (.error e) st).greetings = st.greetings + 1
      ∧ (runClassification (.error e) st).cooldownRemaining = COOLDOWN_FRAMES
      ∧ (runClassification (.error e) st).classPhase = false)
    ∧ ((runClassification (.ok (classifyAudio (.error e2))) st).callerIsAi = false
      ∧ (runClassification (.ok (classifyAudio (.error e2))) st).greetings = st.greetings + 1
      ∧ (runClassification (.ok (classifyAudio (.error e2))) st).cooldownRemaining
        = COOLDOWN_FRAMES
      ∧ (runClassification (.ok (classifyAudio (.error e2))) st).classPhase = false) := by
  have hhum : lowerChars ['h', 'u', 'm', 'a', 'n'] ≠ ['a', 'i'] := by decide
  by_cases h5 : st.classSpeechFrames < 5
  · simp_all [runClassification, finishClassificationAsHuman, classifyAudio, defaultHuman]
  · simp_all [runClassification, finishClassificationAsHuman, classifyAudio, defaultHuman]
    split <;> simp_all

/-- Claim C7, witness: a talkative window whose classifier call fails. -/
theorem c7_classifier_failure_fail_open_witness :
    ((runClassification (.error ()) classifyingDemo).callerIsAi = false
      ∧ (runClassification (.error ()) classifyingDemo).greetings
        = classifyingDemo.greetings + 1
      ∧ (runClassification (.error ()) classifyingDemo).cooldownRemaining
        = COOLDOWN_FRAMES
      ∧ (runClassification (.error ()) classifyingDemo).classPhase = false)
    ∧ ((runClassification (.ok (classifyAudio (.error ()))) classifyingDemo).callerIsAi = false
      ∧ (runClassification (.ok (classifyAudio (.error ()))) classifyingDemo).greetings
        = classifyingDemo.greetings + 1
      ∧ (runClassification (.ok (classifyAudio (.error ()))) classifyingDemo).cooldownRemaining
        = COOLDOWN_FRAMES
      ∧ (runClassification (.ok (classifyAudio (.error ()))) classifyingDemo).classPhase
        = false) :=
  c7_classifier_failure_fail_open classifyingDemo () () rfl

/-- Helper: a blocked session ignores a media event entirely. -/
theorem onMedia_blocked (vad : Nat → Except Unit Bool) (f : Nat) (st : Session)
    (h : st.callerIsAi = true) : onMedia vad f st = st := by
  unfold onMedia
  simp [h]

/-- Helper: a blocked session ignores any run of media events. -/
theorem runFrames_blocked (vad : Nat → Except Unit Bool) (frames : List Nat) :
    ∀ st : Session, st.callerIsAi = true → runFrames vad frames st = st := by
  induction frames with
  | nil => intro st _; rfl
  | cons f rest ih =>
    intro st h
    show runFrames vad rest (onMedia vad f st) = st
    rw [onMedia_blocked vad f st h]
    exact ih st h

/-- Claim C3: if the classifier (called on a window with at least five
speech frames) returns the label "ai", the session is blocked, the
announcement is played exactly once, and every subsequent inbound media
event leaves the session state untouched for the rest of the
connection — no re-classification, no segmenter activity. -/
theorem c3_ai_blocked (vad : Nat → Except Unit Bool) (st : Session)
    (frames : List Nat) (h5 : 5 ≤ st.classSpeechFrames) :
    (runClassification (.ok ⟨some "ai".toList⟩) st).callerIsAi = true
    ∧ (runClassification (.ok ⟨some "ai".toList⟩) st).announcements
      = st.announcements + 1
    ∧ runFrames vad frames (runClassification (.ok ⟨some "ai".toList⟩) st)
      = runClassification (.ok ⟨some "ai".toList⟩) st := by
  have hblocked : (runClassification (.ok ⟨some "ai".toList⟩) st).callerIsAi = true
      ∧ (runClassification (.ok ⟨some "ai".toList⟩) st).announcements
        = st.announcements + 1 := by
    have h5n : ¬ st.classSpeechFrames < 5 := by omega
    have hcond : lowerChars ['a', 'i'] = ['a', 'i'] := by decide
    simp [runClassification, h5n, hcond]
  exact ⟨hblocked.1, hblocked.2,
    runFrames_blocked vad frames (runClassification (.ok ⟨some "ai".toList⟩) st) hblocked.1⟩

/-- Claim C3, witness: a concrete session classified as AI followed by
three further media events. -/
theorem c3_ai_blocked_witness :
    (runClassification (.ok ⟨some "ai".toList⟩) classifyingDemo).callerIsAi = true
    ∧ (runClassification (.ok ⟨some "ai".toList⟩) classifyingDemo).announcements
      = classifyingDemo.announcements + 1
    ∧ runFrames vadDemo [3, 4, 5]
        (runClassification (.ok ⟨some "ai".toList⟩) classifyingDemo)
      = runClassification (.ok ⟨some "ai".toList⟩) classifyingDemo :=
  c3_ai_blocked vadDemo classifyingDemo [3, 4, 5] (by decide)

/-- Helper: folding a run of frames splits over append. -/
theorem runFrames_cons (vad : Nat → Except Unit Bool) (f : Nat) (rest : List Nat)
    (st : Session) : runFrames vad (f :: rest) st = runFrames vad rest (onMedia vad f st) :=
  rfl

/-- Helper: a run over concatenated frame lists is the composition of runs. -/
theorem runFrames_append (vad : Nat → Except Unit Bool) (a b : List Nat) (st : Session) :
    runFrames vad (a ++ b) st = runFrames vad b (runFrames vad a st) := by
  simp [runFrames, List.foldl_append]

/-- Helper: speech count of a cons. -/
theorem countSpeech_cons (vad : Nat → Except Unit Bool) (g : Nat) (rest : List Nat) :
    countSpeech vad (g :: rest)
      = (if checkVad vad g then 1 else 0) + countSpeech vad rest := by
  simp [countSpeech, List.filter_cons]
  split <;> simp [Nat.add_comm]

/-- Helper: speech count adds over append. -/
theorem countSpeech_append (vad : Nat → Except Unit Bool) (a b : List Nat) :
    countSpeech vad (a ++ b) = countSpeech vad a + countSpeech vad b := by
  simp [countSpeech, List.filter_append]

/-- Helper: a list of silence frames has speech count zero. -/
theorem countSpeech_silent (vad : Nat → Except Unit Bool) (l : List Nat)
    (h : ∀ g ∈ l, checkVad vad g = false) : countSpeech vad l = 0 := by
  simp [countSpeech, List.filter_eq_nil_iff]
  intro g hg
  simp [h g hg]

/-- Helper: speech count of a prefix is at most that of the whole list. -/
theorem countSpeech_take_le (vad : Nat → Except Unit Bool) (l : List Nat) (k : Nat) :
    countSpeech vad (l.take k) ≤ countSpeech vad l :=
  ((List.take_sublist k l).filter _).length_le

/-- Helper: the empty active state satisfies the segmenter invariant. -/
theorem segInv_init : SegInv activeInit :=
  ⟨rfl, rfl, rfl, rfl, rfl, rfl, rfl, rfl, rfl, rfl, rfl, by decide,
   fun _ => ⟨rfl, rfl, rfl⟩⟩

/-- Helper: in the active phase outside cooldown bookkeeping, a media
event is exactly one framing-loop iteration. -/
theorem onMedia_active (vad : Nat → Except Unit Bool) (f : Nat) (st : Session)
    (hai : st.callerIsAi = false) (hip : st.isProcessing = false)
    (hcp : st.classPhase = false) (hmb : st.mulawBuffer = []) :
    onMedia vad f st = processFrame vad f st := by
  obtain ⟨cp, ai, ip, cd, ca, csf, mb, ab, ss, sc, sfc, em, gr, an, cc⟩ := st
  dsimp only at hai hip hcp hmb
  subst hai hip hcp hmb
  rfl

/-- Helper: an invariant state that has not started speech is the empty
active state. -/
theorem segInv_not_started (st : Session) (hinv : SegInv st)
    (hss : st.speechStarted = false) : st = activeInit := by
  obtain ⟨hcp, hai, hip, hcd, hca, hcsf, hmb, hem, hgr, han, hcc, hsil, hns⟩ := hinv
  have h3 := hns hss
  obtain ⟨cp, ai, ip, cd, ca, csf, mb, ab, ss, sc0, sfc, em, gr, an, cc⟩ := st
  simp_all [activeInit]

/-- Helper: resetting the VAD state of an invariant state (with whatever
silence count and audio buffer) yields the empty active state. -/
theorem resetVad_eq_init (st : Session) (hinv : SegInv st) (sc : Nat) (ab : List Nat) :
    resetVadState { st with silenceCount := sc, audioBuffer := ab } = activeInit := by
  obtain ⟨hcp, hai, hip, hcd, hca, hcsf, hmb, hem, hgr, han, hcc, hsil, hns⟩ := hinv
  obtain ⟨cp, ai, ip, cd, ca, csf, mb, abf, ss, sc0, sfc, em, gr, an, cc⟩ := st
  simp_all [resetVadState, activeInit]

/-- Helper: one framing-loop iteration preserves the segmenter invariant
while fewer than MIN_SPEECH_FRAMES speech frames have been seen, and
increases the speech counter by at most the frame's own speech flag. -/
theorem processFrame_step (vad : Nat → Except Unit Bool) (f : Nat) (st : Session)
    (hinv : SegInv st) (hc : st.speechFrameCount < MIN_SPEECH_FRAMES) :
    SegInv (processFrame vad f st)
    ∧ (processFrame vad f st).speechFrameCount
      ≤ st.speechFrameCount + (if checkVad vad f then 1 else 0) := by
  obtain ⟨hcp, hai, hip, hcd, hca, hcsf, hmb, hem, hgr, han, hcc, hsil, hns⟩ := hinv
  have hcd0 : ¬ st.cooldownRemaining > 0 := by omega
  cases hv : checkVad vad f with
  | true =>
    have hpf : processFrame vad f st
        = { st with speechStarted := true, silenceCount := 0,
                    speechFrameCount := st.speechFrameCount + 1,
                    audioBuffer := st.audioBuffer ++ [f] } := by
      simp [processFrame, hcd0, hv]
    rw [hpf]
    exact ⟨⟨hcp, hai, hip, hcd, hca, hcsf, hmb, hem, hgr, han, hcc,
            by show (0:Nat) < SILENCE_THRESHOLD_FRAMES; decide,
            fun h => by simp at h⟩, by simp [hv]⟩
  | false =>
    cases hss : st.speechStarted with
    | false =>
      have hpf : processFrame vad f st = st := by
        simp [processFrame, hcd0, hv, hss]
      rw [hpf]
      exact ⟨⟨hcp, hai, hip, hcd, hca, hcsf, hmb, hem, hgr, han, hcc, hsil, hns⟩,
             by simp [hv]⟩
    | true =>
      by_cases h25 : st.silenceCount + 1 ≥ SILENCE_THRESHOLD_FRAMES
      · have h20 : ¬ st.speechFrameCount ≥ MIN_SPEECH_FRAMES := by omega
        have hpf : processFrame vad f st
            = resetVadState { st with silenceCount := st.silenceCount + 1,
                                      audioBuffer := st.audioBuffer ++ [f] } := by
          simp [processFrame, hcd0, hv, hss, h25, h20]
        rw [hpf]
        refine ⟨⟨hcp, hai, hip, hcd, hca, hcsf, rfl, hem, hgr, han, hcc,
                by show (0:Nat) < SILENCE_THRESHOLD_FRAMES; decide,
                fun _ => ⟨rfl, rfl, rfl⟩⟩, ?_⟩
        simp [resetVadState, hv]
      · have hpf : processFrame vad f st
            = { st with silenceCount := st.silenceCount + 1,
                        audioBuffer := st.audioBuffer ++ [f] } := by
          simp [processFrame, hcd0, hv, hss, h25]
        rw [hpf]
        refine ⟨⟨hcp, hai, hip, hcd, hca, hcsf, hmb, hem, hgr, han, hcc, ?_, ?_⟩, ?_⟩
        · show st.silenceCount + 1 < SILENCE_THRESHOLD_FRAMES
          omega
        · intro h
          simp [hss] at h
        · simp [hv]

/-- Helper: a run of frames with a total speech budget strictly below
MIN_SPEECH_FRAMES keeps the segmenter invariant (in particular, nothing
is ever handed to the pipeline) and the speech counter stays within the
budget. -/
theorem runFrames_inv (vad : Nat → Except Unit Bool) :
    ∀ (frames : List Nat) (st : Session), SegInv st →
      st.speechFrameCount + countSpeech vad frames < MIN_SPEECH_FRAMES →
      SegInv (runFrames vad frames st)
      ∧ (runFrames vad frames st).speechFrameCount
        ≤ st.speechFrameCount + countSpeech vad frames := by
  intro frames
  induction frames with
  | nil =>
    intro st h _
    exact ⟨h, le_refl _⟩
  | cons g rest ih =>
    intro st h hb
    have hcons := countSpeech_cons vad g rest
    have hc : st.speechFrameCount < MIN_SPEECH_FRAMES := by
      rw [hcons] at hb
      split at hb <;> omega
    have step := processFrame_step vad g st h hc
    rw [runFrames_cons, onMedia_active vad g st h.hai h.hip h.hcp h.hmb]
    have hb2 : (processFrame vad g st).speechFrameCount + countSpeech vad rest
        < MIN_SPEECH_FRAMES := by
      have hs2 := step.2
      rw [hcons] at hb
      cases hv : checkVad vad g <;> simp [hv] at hb hs2 <;> omega
    have rec := ih (processFrame vad g st) step.1 hb2
    refine ⟨rec.1, ?_⟩
    have hs2 := step.2
    have hr2 := rec.2
    rw [hcons]
    cases hv : checkVad vad g <;> simp [hv] at hs2 ⊢ <;> omega

/-- Helper: a silence frame leaves the empty active state unchanged. -/
theorem onMedia_silent_noop (vad : Nat → Except Unit Bool) (g : Nat)
    (hv : checkVad vad g = false) : onMedia vad g activeInit = activeInit := by
  rw [onMedia_active vad g activeInit rfl rfl rfl rfl]
  simp [processFrame, activeInit, hv]

/-- Helper: silence frames leave the empty active state unchanged. -/
theorem runFrames_silent_init (vad : Nat → Except Unit Bool) :
    ∀ (sils : List Nat), (∀ g ∈ sils, checkVad vad g = false) →
      runFrames vad sils activeInit = activeInit := by
  intro sils
  induction sils with
  | nil => intro _; rfl
  | cons g rest ih =>
    intro hall
    rw [runFrames_cons, onMedia_silent_noop vad g (hall g (List.mem_cons_self g rest))]
    exact ih (fun g2 h => hall g2 (List.mem_cons_of_mem g h))

/-- Helper: from a started invariant state with fewer than
MIN_SPEECH_FRAMES speech frames, enough silence frames to cross the
silence threshold return the session to the empty active state. -/
theorem runFrames_silent_started (vad : Nat → Except Unit Bool) :
    ∀ (sils : List Nat) (st : Session),
      (∀ g ∈ sils, checkVad vad g = false) → SegInv st →
      st.speechStarted = true → st.speechFrameCount < MIN_SPEECH_FRAMES →
      SILENCE_THRESHOLD_FRAMES ≤ st.silenceCount + sils.length →
      runFrames vad sils st = activeInit := by
  intro sils
  induction sils with
  | nil =>
    intro st _ hinv _ _ hth
    have hs := hinv.hsil
    simp at hth
    omega
  | cons g rest ih =>
    intro st hall hinv hss hc hth
    have hv : checkVad vad g = false := hall g (List.mem_cons_self g rest)
    have hcd0 : ¬ st.cooldownRemaining > 0 := by have := hinv.hcd; omega
    rw [runFrames_cons, onMedia_active vad g st hinv.hai hinv.hip hinv.hcp hinv.hmb]
    by_cases h25 : st.silenceCount + 1 ≥ SILENCE_THRESHOLD_FRAMES
    · have h20 : ¬ st.speechFrameCount ≥ MIN_SPEECH_FRAMES := by omega
      have hpf : processFrame vad g st
          = resetVadState { st with silenceCount := st.silenceCount + 1,
                                    audioBuffer := st.audioBuffer ++ [g] } := by
        simp [processFrame, hcd0, hv, hss, h25, h20]
      rw [hpf, resetVad_eq_init st hinv _ _]
      exact runFrames_silent_init vad rest (fun g2 h => hall g2 (List.mem_cons_of_mem g h))
    · have hpf : processFrame vad g st
          = { st with silenceCount := st.silenceCount + 1,
                      audioBuffer := st.audioBuffer ++ [g] } := by
        simp [processFrame, hcd0, hv, hss, h25]
      rw [hpf]
      apply ih
      · exact fun g2 h => hall g2 (List.mem_cons_of_mem g h)
      · exact ⟨hinv.hcp, hinv.hai, hinv.hip, hinv.hcd, hinv.hca, hinv.hcsf, hinv.hmb,
               hinv.hem, hinv.hgr, hinv.han, hinv.hcc,
               by show st.silenceCount + 1 < SILENCE_THRESHOLD_FRAMES; omega,
               fun h => by simp [hss] at h⟩
      · exact hss
      · exact hc
      · show SILENCE_THRESHOLD_FRAMES ≤ st.silenceCount + 1 + rest.length
        simp at hth
        omega

/-- Claim C5: for every frame sequence in the active phase consisting of
frames with strictly fewer than MIN_SPEECH_FRAMES speech frames in total
followed by SILENCE_THRESHOLD_FRAMES silence frames, the pipeline is
never invoked (no prefix of the run hands anything to process_speech)
and the session returns exactly to the empty active state when the
silence threshold is reached. -/
theorem c5_short_speech_no_pipeline (vad : Nat → Except Unit Bool)
    (pre sils : List Nat)
    (hcnt : countSpeech vad pre < MIN_SPEECH_FRAMES)
    (hlen : sils.length = SILENCE_THRESHOLD_FRAMES)
    (hsil : ∀ g ∈ sils, checkVad vad g = false) :
    runFrames vad (pre ++ sils) activeInit = activeInit
    ∧ ∀ k, (runFrames vad ((pre ++ sils).take k) activeInit).emitted = [] := by
  have h0cnt : activeInit.speechFrameCount = 0 := rfl
  constructor
  · rw [runFrames_append]
    have h1 := runFrames_inv vad pre activeInit segInv_init (by omega)
    cases hss : (runFrames vad pre activeInit).speechStarted with
    | false =>
      rw [segInv_not_started (runFrames vad pre activeInit) h1.1 hss]
      exact runFrames_silent_init vad sils hsil
    | true =>
      refine runFrames_silent_started vad sils (runFrames vad pre activeInit)
        hsil h1.1 hss ?_ ?_
      · have := h1.2
        omega
      · rw [hlen]
        omega
  · intro k
    have htake : countSpeech vad ((pre ++ sils).take k) < MIN_SPEECH_FRAMES := by
      have ht := countSpeech_take_le vad (pre ++ sils) k
      have ha := countSpeech_append vad pre sils
      have hz := countSpeech_silent vad sils hsil
      omega
    exact (runFrames_inv vad ((pre ++ sils).take k) activeInit segInv_init
      (by omega)).1.hem

/-- Claim C5, witness: three speech frames then 25 silence frames under
the demo detector. -/
theorem c5_short_speech_no_pipeline_witness :
    runFrames vadDemo (preDemo ++ silsDemo) activeInit = activeInit
    ∧ (runFrames vadDemo ((preDemo ++ silsDemo).take 10) activeInit).emitted = [] :=
  ⟨(c5_short_speech_no_pipeline vadDemo preDemo silsDemo (by decide) (by decide)
      (by decide)).1,
   (c5_short_speech_no_pipeline vadDemo preDemo silsDemo (by decide) (by decide)
      (by decide)).2 10⟩

end TwilioStream
